import Mathlib

/-!
Shallow embedding of the speedsentry polling server core
(ps/source/monitor.cpp, host_scheme.cpp, host_scheme_timer.cpp,
data_aggregator.cpp, inbound_rest_api.cpp) together with theorems checking
the natural-language specification against it.

Modelling conventions:
* byte strings are `List Nat` (each element a value 0..255; values written
  into payloads are reduced modulo 256 at encoding time);
* SHA-256 is idealised as an injective function of the byte stream fed to
  it, so a hash value is represented by the stream itself
  (`QCryptographicHash.addData` calls become list concatenation);
* Qt library primitives that are external to this repository
  (`QUrl::isValid`, `QByteArray::fromBase64Encoding`, `QString::fromUtf8`)
  are taken as explicit function parameters;
* wall-clock readings (`QDateTime::currentSecsSinceEpoch`,
  `currentMSecsSinceEpoch`) are explicit arguments;
* fallible C++ paths (dereferencing an end iterator) return `Option`,
  `none` marking undefined behaviour.
-/

namespace PS

/-- Byte strings: a list of byte values. -/
abbrev Bytes := List Nat

/-- Monitor status, from monitor.h (enum MonitorStatus). -/
inductive MonitorStatus where
  | UNKNOWN
  | WORKING
  | FAILED
deriving DecidableEq, Repr

/-- Event types, from host_scheme.h (enum EventType). -/
inductive EventType where
  | INVALID
  | WORKING
  | NO_RESPONSE
  | CONTENT_CHANGED
  | KEYWORDS
  | SSL_CERTIFICATE
deriving DecidableEq, Repr

/-- Content check modes, from monitor.h (enum ContentCheckMode). -/
inductive ContentCheckMode where
  | NO_CHECK
  | CONTENT_MATCH
  | ANY_KEYWORDS
  | ALL_KEYWORDS
  | SMART_CONTENT_MATCH
deriving DecidableEq, Repr

/-- HTTP methods, from monitor.h (enum Method). -/
inductive Method where
  | GET
  | HEAD
  | POST
  | PUT
  | DELETE
  | OPTIONS
  | PATCH
deriving DecidableEq, Repr

/-- POST content types, from monitor.h (enum ContentType). -/
inductive ContentType where
  | TEXT
  | JSON
  | XML
deriving DecidableEq, Repr

/-- The 4 little-endian bytes of a 32-bit monitor id, as fed to the hash by
`hash.addData(reinterpret_cast<const char*>(&currentMonitorId), sizeof(MonitorId))`
in monitor.cpp (x86-64 little endian layout). -/
def idBytes (id : Nat) : Bytes :=
  [id % 256, id / 256 % 256, id / 65536 % 256, id / 16777216 % 256]

/-- An event delivered to the data aggregator (`DataAggregator::reportEvent`
call sites in monitor.cpp).  The hash field carries the idealised SHA-256
input stream; `timestamp` is the wall clock passed in by the caller. -/
structure Event where
  monitorId : Nat
  timestamp : Nat
  eventType : EventType
  monitorStatus : MonitorStatus
  hash : Bytes
  message : String
deriving DecidableEq, Repr

/-- `QByteArray::contains(keyword)`: the keyword occurs as a contiguous
substring of the body. -/
def bytesContains (body kw : Bytes) : Bool := decide (kw <:+: body)

/-- The do-while loop of `Monitor::checkAnyKeywordMatch` (monitor.cpp):
scan keywords in order, stop at the first keyword contained in the body;
that keyword (alone) is folded into the hash.  Returns
(success, keywords folded into the hash). -/
def scanAnyKeywords (body : Bytes) : List Bytes → Bool × List Bytes
  | [] => (false, [])
  | kw :: rest =>
      if bytesContains body kw then (true, [kw])
      else scanAnyKeywords body rest

/-- The do-while loop of `Monitor::checkAllKeywordMatch` (monitor.cpp):
scan keywords in order; each found keyword is folded into the hash and the
scan moves on; the scan STOPS at the first keyword not contained in the
body.  Returns (success, keywords folded into the hash, the missing keyword
recorded in `missingKeyword`, if any). -/
def scanAllKeywords (body : Bytes) : List Bytes → Bool × List Bytes × Option Bytes
  | [] => (true, [], none)
  | kw :: rest =>
      if bytesContains body kw then
        let r := scanAllKeywords body rest
        (r.1, kw :: r.2.1, r.2.2)
      else
        (false, [], some kw)

/-- `Monitor::checkAnyKeywordMatch` (monitor.cpp lines 603-638): with a
non-empty keyword list, hash the monitor id, the body and the first found
keyword; emit a KEYWORDS event iff no keyword was found and the hash
changed; always store the new hash.  With an empty keyword list, do
nothing.  Returns (new stored hash, emitted events). -/
def checkAnyKeywordMatch (id now : Nat) (status : MonitorStatus) (lastHash : Bytes)
    (keywords : List Bytes) (body : Bytes) : Bytes × List Event :=
  if keywords.length > 0 then
    let scan := scanAnyKeywords body keywords
    let thisHash := idBytes id ++ body ++ scan.2.flatten
    let events :=
      if scan.1 = false ∧ lastHash ≠ thisHash then
        [{ monitorId := id, timestamp := now, eventType := EventType.KEYWORDS,
           monitorStatus := status, hash := thisHash, message := "" }]
      else []
    (thisHash, events)
  else
    (lastHash, [])

/-- `Monitor::checkAllKeywordMatch` (monitor.cpp lines 641-680): with a
non-empty keyword list, hash the monitor id, the body and every keyword
found before the scan stopped; emit a KEYWORDS event iff some keyword was
missing and the hash changed, the message naming the missing keyword
(UTF-8 decoded by the external `utf8` parameter); always store the new
hash.  With an empty keyword list, do nothing. -/
def checkAllKeywordMatch (utf8 : Bytes → String) (id now : Nat) (status : MonitorStatus)
    (lastHash : Bytes) (keywords : List Bytes) (body : Bytes) : Bytes × List Event :=
  if keywords.length > 0 then
    let scan := scanAllKeywords body keywords
    let thisHash := idBytes id ++ body ++ scan.2.1.flatten
    let missingMessage :=
      match scan.2.2 with
      | some kw => "Missing keyword \"" ++ utf8 kw ++ "\""
      | none => ""
    let events :=
      if scan.1 = false ∧ lastHash ≠ thisHash then
        [{ monitorId := id, timestamp := now, eventType := EventType.KEYWORDS,
           monitorStatus := status, hash := thisHash, message := missingMessage }]
      else []
    (thisHash, events)
  else
    (lastHash, [])

/-- `Monitor::checkContentChange` (monitor.cpp lines 576-600): hash the
monitor id followed by the body; on first observation (empty stored hash)
just store; afterwards emit CONTENT_CHANGED and store on inequality. -/
def checkContentChange (id now : Nat) (status : MonitorStatus) (lastHash : Bytes)
    (body : Bytes) : Bytes × List Event :=
  let thisHash := idBytes id ++ body
  if lastHash.isEmpty then
    (thisHash, [])
  else if lastHash ≠ thisHash then
    (thisHash,
      [{ monitorId := id, timestamp := now, eventType := EventType.CONTENT_CHANGED,
         monitorStatus := status, hash := thisHash, message := "" }])
  else
    (lastHash, [])

/-! ### Monitor probe state machine (monitor.cpp) -/

/-- The state of the raw `QNetworkReply* pendingReply` pointer of a
monitor: null, pointing at a live in-flight reply, or pointing at a reply
object that has been deleted (the pointer itself unchanged, hence still
non-null). -/
inductive ReplySlot where
  | null
  | live
  | dangling
deriving DecidableEq, Repr

/-- The per-monitor state relevant to the probe state machine. -/
structure MonitorM where
  id : Nat
  status : MonitorStatus
  slot : ReplySlot
  lastHash : Bytes
deriving DecidableEq, Repr

/-- `Monitor::startCheck` (monitor.cpp lines 349-456).  The dispatch is
gated on `pendingReply == nullptr`; with a host scheme present and the
customer not paused a request is dispatched (`pendingReply` set); with no
host scheme the stored hash is cleared.  Returns the new monitor state and
whether a request was dispatched. -/
def startCheck (paused hasHostScheme : Bool) (m : MonitorM) : MonitorM × Bool :=
  if m.slot = ReplySlot.null then
    if hasHostScheme then
      if paused = false then ({ m with slot := ReplySlot.live }, true)
      else (m, false)
    else ({ m with lastHash := [] }, false)
  else (m, false)

/-- `Monitor::abort` (monitor.cpp lines 459-465): when `pendingReply` is
non-null the reply object is deleted, but the pointer itself is NOT reset
to null; the status becomes UNKNOWN; no event is emitted (the returned
event list is the aggregator traffic generated by the call). -/
def abort (m : MonitorM) : MonitorM × List Event :=
  let slot1 := if m.slot = ReplySlot.null then ReplySlot.null else ReplySlot.dangling
  ({ m with slot := slot1, status := MonitorStatus.UNKNOWN }, ([] : List Event))

/-! ### HostScheme suspect set bookkeeping (host_scheme.cpp, monitor.cpp) -/

/-- `QSet::insert`: membership-level model. -/
def setInsert (xs : List Nat) (id : Nat) : List Nat :=
  if id ∈ xs then xs else id :: xs

/-- `QSet::remove` / erase at the iterator: membership-level model. -/
def setRemove (xs : List Nat) (id : Nat) : List Nat :=
  xs.filter (fun j => j != id)

/-- Pointwise status update. -/
def setStatus (f : Nat → MonitorStatus) (id : Nat) (st : MonitorStatus) :
    Nat → MonitorStatus :=
  fun j => if j = id then st else f j

/-- A host scheme with its monitors: the ids present in the monitor map,
each monitor's last observed status, and the suspect
(`nonResponsiveMonitors`) set. -/
structure HSState where
  ids : List Nat
  status : Nat → MonitorStatus
  suspects : List Nat

/-- `HostScheme::monitorAdded` (host_scheme.cpp lines 231-254) combined
with the `Monitor` constructor (monitor.cpp line 83, status starts
UNKNOWN): the monitor joins the monitor map and the suspect set. -/
def hsMonitorAdded (s : HSState) (id : Nat) : HSState :=
  { ids := id :: s.ids,
    status := setStatus s.status id MonitorStatus.UNKNOWN,
    suspects := setInsert s.suspects id }

/-- Status/suspect-set effect of a transport success:
`Monitor::processValidResponse` (monitor.cpp lines 485-503) calling
`HostScheme::monitorNowResponsive` (host_scheme.cpp lines 203-228) when the
previous status was not WORKING; the status always becomes WORKING. -/
def hsValidResponse (s : HSState) (id : Nat) : HSState :=
  if s.status id ≠ MonitorStatus.WORKING then
    { ids := s.ids,
      status := setStatus s.status id MonitorStatus.WORKING,
      suspects := setRemove s.suspects id }
  else
    { s with status := setStatus s.status id MonitorStatus.WORKING }

/-- Status/suspect-set effect of a transport error:
`Monitor::processErrorResponse` (monitor.cpp lines 553-573) calling
`HostScheme::monitorNonResponsive` (host_scheme.cpp lines 192-200) when the
previous status was not FAILED; otherwise a no-op. -/
def hsErrorResponse (s : HSState) (id : Nat) : HSState :=
  if s.status id ≠ MonitorStatus.FAILED then
    { ids := s.ids,
      status := setStatus s.status id MonitorStatus.FAILED,
      suspects := setInsert s.suspects id }
  else s

/-- Status effect of `Monitor::abort` (monitor.cpp lines 459-465) on the
host scheme: the status becomes UNKNOWN and the suspect set is not
touched. -/
def hsAbort (s : HSState) (id : Nat) : HSState :=
  { s with status := setStatus s.status id MonitorStatus.UNKNOWN }

/-- The invariant claimed by the spec: a monitor is in the suspect set iff
its last observed status is not WORKING. -/
def suspectInvariant (s : HSState) : Prop :=
  ∀ id ∈ s.ids, (id ∈ s.suspects ↔ s.status id ≠ MonitorStatus.WORKING)

/-! ### HostScheme round-robin dispatch (host_scheme.cpp 154-189) -/

/-- The two cursors of a host scheme.  `monitors` and `suspects` list the
iteration order of `monitorsByMonitorId` and `nonResponsiveMonitors`;
a cursor value equal to the container length is the end sentinel. -/
structure CursorState where
  monitors : List Nat
  mCursor : Nat
  suspects : List Nat
  sCursor : Nat
deriving DecidableEq, Repr

/-- `HostScheme::serviceNextMonitor` (host_scheme.cpp lines 154-189),
translated step for step: re-seat the monitor cursor to begin when it sits
at end, dereference it (!), advance and wrap; when the suspect set is
non-empty do the same with the suspect cursor and dispatch the suspect as
well when distinct.  Dereferencing the end sentinel of an empty container
is undefined behaviour in the source and is modelled by `none`.  On a
defined path the result carries the list of monitors dispatched via
`startCheck` and the new cursor state. -/
def serviceNextMonitor (s : CursorState) : Option (List Nat × CursorState) :=
  let c0 := if s.mCursor = s.monitors.length then 0 else s.mCursor
  match s.monitors[c0]? with
  | none => none
  | some m =>
    let c1 := if c0 + 1 = s.monitors.length then 0 else c0 + 1
    if s.suspects.isEmpty then
      some ([m], { s with mCursor := c1 })
    else
      let d0 := if s.sCursor = s.suspects.length then 0 else s.sCursor
      match s.suspects[d0]? with
      | none => none
      | some n =>
        let d1 := if d0 + 1 = s.suspects.length then 0 else d0 + 1
        some (if m = n then [m] else [m, n], { s with mCursor := c1, sCursor := d1 })

/-! ### HostSchemeTimer cycle restart (host_scheme_timer.cpp 236-245) -/

/-- The `pollingCycleStartTime` computed by
`HostSchemeTimer::restartTimingCycle`:
`cycleIndex = currentTime / currentPeriodMilliseconds` (unsigned integer
division, i.e. floor) and
`pollingCycleStartTime = currentPeriodMilliseconds * (cycleIndex + 1) +
regionTimeOffsetMilliseconds`. -/
def restartCycleStart (periodMs offsetMs nowMs : Nat) : Nat :=
  periodMs * (nowMs / periodMs + 1) + offsetMs

/-- Modelled from the claim's words (refinement comparison only): the same
computation with `ceil(now_ms / T)` in place of the code's floor
division. -/
def claimCycleStartCeil (periodMs offsetMs nowMs : Nat) : Nat :=
  periodMs * ((nowMs + periodMs - 1) / periodMs + 1) + offsetMs

/-! ### DataAggregator (data_aggregator.h / data_aggregator.cpp) -/

/-- Constant from data_aggregator.h line 514. -/
def maximumReportDelayMilliseconds : Nat := 60 * 1000

/-- Constant from data_aggregator.h line 519. -/
def maximumNumberPendingEntries : Nat := 1000

/-- Constant from data_aggregator.h line 524. -/
def retryDelaySeconds : Nat := 60

/-- Constant from data_aggregator.h line 529. -/
def maximumIdentifierLength : Nat := 48

/-- Constant from data_aggregator.h line 87. -/
def startOfZoranEpoch : Nat := 1609484400

/-- `DataAggregator::LatencyEntry` (data_aggregator.h): the stored fields.
`zoranTimestamp` is the u32 stored by the constructor. -/
structure LatencyEntry where
  monitorId : Nat
  zoranTimestamp : Nat
  latencyMicroseconds : Nat
deriving DecidableEq, Repr

/-- The `LatencyEntry` constructor (data_aggregator.h lines 106-117):
`currentTimestamp = unixTimestamp - startOfZoranEpoch`, an unsigned
subtraction truncated to the 32-bit `ZoranTimeStamp` field. -/
def mkLatencyEntry (monitorId unixTimestamp latency : Nat) : LatencyEntry :=
  { monitorId := monitorId,
    zoranTimestamp := ((((unixTimestamp : Int) - (startOfZoranEpoch : Int)) % (4294967296 : Int)).toNat),
    latencyMicroseconds := latency }

/-- The header fields that `DataAggregator::sendReport` samples from its
environment (tracker, OS metrics); the numeric fields are the integer
values written into the packed header.  `identifier` is the 48-byte
`headerTemplate.identifier` array populated by `setServerIdentifier`. -/
structure HeaderEnv where
  identifier : Bytes
  monitorsPerSecond : Nat
  cpuLoading : Nat
  memoryLoading : Nat
  serverStatusCode : Nat
deriving DecidableEq, Repr

/-- `DataAggregator::setServerIdentifier` (data_aggregator.cpp 129-138):
copy at most 48 bytes of the raw identifier and zero-fill the rest. -/
def padIdentifier (raw : Bytes) : Bytes :=
  raw.take maximumIdentifierLength
    ++ List.replicate (maximumIdentifierLength - raw.length) 0

/-- Little-endian encoding of a u16 field. -/
def le16 (n : Nat) : Bytes := [n % 256, n / 256 % 256]

/-- Little-endian encoding of a u32 field. -/
def le32 (n : Nat) : Bytes :=
  [n % 256, n / 256 % 256, n / 65536 % 256, n / 16777216 % 256]

/-- The packed 64-byte `DataAggregator::Header` (data_aggregator.h lines
535-571) as written by `sendReport`: u16 version (always 0 — the template
is zeroed in `configure`), 48 identifier bytes, u32 monitorsPerSecond, u16
cpuLoading, u16 memoryLoading, u8 serverStatusCode, and the `spare` array
of `64 - (2 + 48 + 4 + 2 + 2 + 1) = 5` zero bytes. -/
def encodeHeader (e : HeaderEnv) : Bytes :=
  le16 0
    ++ e.identifier.take 48 ++ List.replicate (48 - e.identifier.length) 0
    ++ le32 e.monitorsPerSecond
    ++ le16 e.cpuLoading
    ++ le16 e.memoryLoading
    ++ [e.serverStatusCode % 256]
    ++ List.replicate 5 0

/-- Modelled from the claim's words (refinement comparison only): the same
header but with `u8 reserved[3]` — three reserved bytes — as the spec's
`/latency/record` layout table states. -/
def claimHeaderReserved3 (e : HeaderEnv) : Bytes :=
  le16 0
    ++ e.identifier.take 48 ++ List.replicate (48 - e.identifier.length) 0
    ++ le32 e.monitorsPerSecond
    ++ le16 e.cpuLoading
    ++ le16 e.memoryLoading
    ++ [e.serverStatusCode % 256]
    ++ List.replicate 3 0

/-- The packed 12-byte `DataAggregator::Entry` (data_aggregator.h lines
577-592): u32 monitorId, u32 zoranTimestamp, u32 latencyMicroseconds,
little endian. -/
def encodeEntry (en : LatencyEntry) : Bytes :=
  le32 en.monitorId ++ le32 en.zoranTimestamp ++ le32 en.latencyMicroseconds

/-- `DataAggregator::sendReport` (data_aggregator.cpp lines 335-359): the
64-byte header followed by the packed entries in list order. -/
def sendReportBytes (e : HeaderEnv) (entries : List LatencyEntry) : Bytes :=
  encodeHeader e ++ (entries.map encodeEntry).flatten

/-- Decode a packed little-endian u32 from 4 bytes. -/
def decLe32 (b0 b1 b2 b3 : Nat) : Nat :=
  b0 + 256 * b1 + 65536 * b2 + 16777216 * b3

/-- Decode the packed entry region back into (monitorId, zoranTimestamp,
latencyMicroseconds) triples, 12 bytes at a time. -/
def decodeEntries : Bytes → List (Nat × Nat × Nat)
  | b0 :: b1 :: b2 :: b3 :: b4 :: b5 :: b6 :: b7 :: b8 :: b9 :: b10 :: b11 :: rest =>
      (decLe32 b0 b1 b2 b3, decLe32 b4 b5 b6 b7, decLe32 b8 b9 b10 b11) :: decodeEntries rest
  | _ => []

/-- The aggregator state: the mutex-guarded current and in-flight latency
vectors, the single-shot report and retry timers (armed delay in
milliseconds) and, for observability, the log of payloads POSTed to
`/latency/record` in order. -/
structure AggState where
  current : List LatencyEntry
  inFlight : Option (List LatencyEntry)
  reportTimer : Option Nat
  retryTimer : Option Nat
  posts : List Bytes
deriving DecidableEq, Repr

/-- `DataAggregator::recordLatency` (data_aggregator.cpp lines 141-156):
append the new entry to the current vector; then, only when there is no
in-flight batch: with ≥ 1000 pending entries trigger reporting immediately
(`triggerReporting()` restarts the report timer with delay 0), else arm
the 60-second report timer if it is not already armed. -/
def recordLatency (s : AggState) (monitorId unixTimestamp latency : Nat) : AggState :=
  let s1 := { s with current := s.current ++ [mkLatencyEntry monitorId unixTimestamp latency] }
  if s1.inFlight = none then
    if maximumNumberPendingEntries ≤ s1.current.length then
      { s1 with reportTimer := some 0 }
    else if s1.reportTimer = none then
      { s1 with reportTimer := some maximumReportDelayMilliseconds }
    else s1
  else s1

/-- Modelled from the claim's words (refinement comparison only): "if
there is no in-flight batch and the current vector holds at least 1000
entries, an immediate flush is scheduled; otherwise, if the flush timer is
not already armed, it is armed for 60 seconds". -/
def recordLatencyClaim (s : AggState) (monitorId unixTimestamp latency : Nat) : AggState :=
  let s1 := { s with current := s.current ++ [mkLatencyEntry monitorId unixTimestamp latency] }
  if s1.inFlight = none ∧ maximumNumberPendingEntries ≤ s1.current.length then
    { s1 with reportTimer := some 0 }
  else if s1.reportTimer = none then
    { s1 with reportTimer := some maximumReportDelayMilliseconds }
  else s1

/-- `DataAggregator::startReportingLatencyData` (data_aggregator.cpp lines
277-291): when no batch is in flight, atomically move current → in-flight
(leaving a fresh empty current vector) and POST the packed report;
otherwise do nothing. -/
def startReportingLatencyData (e : HeaderEnv) (s : AggState) : AggState :=
  match s.inFlight with
  | none =>
      { s with current := [],
               inFlight := some s.current,
               posts := s.posts ++ [sendReportBytes e s.current] }
  | some _ => s

/-- The single-shot report timer firing: the timer disarms itself and the
timeout is connected to `startReportingLatencyData`. -/
def fireReportTimer (e : HeaderEnv) (s : AggState) : AggState :=
  startReportingLatencyData e { s with reportTimer := none }

/-- `DataAggregator::processRequestFailed` (data_aggregator.cpp lines
265-274): log and arm the retry timer for `1000 * retryDelaySeconds`
milliseconds; the latency vectors are untouched. -/
def requestFailed (s : AggState) : AggState :=
  { s with retryTimer := some (1000 * retryDelaySeconds) }

/-- The single-shot retry timer firing `DataAggregator::startRetry`
(data_aggregator.cpp lines 294-298): when a batch is in flight, re-POST it
through `sendReport`; otherwise nothing. -/
def fireRetryTimer (e : HeaderEnv) (s : AggState) : AggState :=
  let s1 := { s with retryTimer := none }
  match s1.inFlight with
  | some b => { s1 with posts := s1.posts ++ [sendReportBytes e b] }
  | none => s1

/-- The success branch of `DataAggregator::processResponse`
(data_aggregator.cpp lines 228-252): drop the in-flight batch; then
trigger an immediate flush when ≥ 1000 entries are pending, or a 60-second
delayed one when any are pending. -/
def responseOk (s : AggState) : AggState :=
  match s.inFlight with
  | some _ =>
      let s1 := { s with inFlight := none }
      if maximumNumberPendingEntries ≤ s1.current.length then
        { s1 with reportTimer := some 0 }
      else if 0 < s1.current.length then
        { s1 with reportTimer := some maximumReportDelayMilliseconds }
      else s1
  | none => s

/-- `k` rounds of (transport failure, retry-timer fire), the retry loop of
data_aggregator.cpp.  Each retry re-runs `sendReport`, which re-samples
`monitorsPerSecond()`, `cpuUtilization()`, `memoryUtilization()` and the
tracker status at that call (data_aggregator.cpp lines 344-347): `envs i`
is the header environment sampled by the i-th retry's POST. -/
def retryRounds (envs : Nat → HeaderEnv) (s : AggState) : Nat → AggState
  | 0 => s
  | k + 1 => retryRounds (fun i => envs (i + 1)) (fireRetryTimer (envs 0) (requestFailed s)) k

/-! ### Inbound /customer/add (inbound_rest_api.cpp 254-642)

JSON values are modelled with objects as association lists iterated in
list order and numbers restricted to whole values (`QJsonValue::toInt`
returns its default for non-integral doubles).  The Qt primitives
`QUrl::isValid` and `QByteArray::fromBase64Encoding` are passed in as the
`urlValid` and `b64` parameters. -/

inductive JValue where
  | jnull
  | jbool (b : Bool)
  | jnum (n : Int)
  | jstr (s : String)
  | jarr (elems : List JValue)
  | jobj (fields : List (String × JValue))

/-- `QJsonObject::value`: the first binding of the key, `none` when
missing. -/
def jlookup (fields : List (String × JValue)) (k : String) : Option JValue :=
  match fields with
  | [] => none
  | (k1, v) :: rest => if k1 = k then some v else jlookup rest k

/-- `QJsonValue::toBool(defaultValue)`. -/
def jToBool (v : Option JValue) (d : Bool) : Bool :=
  match v with
  | some (JValue.jbool b) => b
  | _ => d

/-- `QJsonValue::toInt(defaultValue)` on whole-valued numbers. -/
def jToInt (v : Option JValue) (d : Int) : Int :=
  match v with
  | some (JValue.jnum n) => n
  | _ => d

/-- `QJsonValue::toString()`: the string value, or a null string for
non-strings. -/
def jToString (v : Option JValue) : String :=
  match v with
  | some (JValue.jstr s) => s
  | _ => ""

/-- `QString::trimmed`: strip leading and trailing whitespace (char-list
implementation). -/
def strTrim (s : String) : String :=
  ⟨((s.data.dropWhile Char.isWhitespace).reverse.dropWhile Char.isWhitespace).reverse⟩

/-- `QString::toLower` (char-list implementation). -/
def strToLower (s : String) : String :=
  ⟨s.data.map Char.toLower⟩

/-- `QString::replace('-', '_')` — the per-character overload used in
`Monitor::toContentCheckMode`. -/
def strDashToUnderscore (s : String) : String :=
  ⟨s.data.map (fun c => if c = '-' then '_' else c)⟩

/-- Decimal digit-string parser backing `QString::toUInt`. -/
def parseDecimal (cs : List Char) : Option Nat :=
  if cs ≠ [] ∧ cs.all Char.isDigit then
    some (cs.foldl (fun a c => 10 * a + (c.toNat - 48)) 0)
  else none

/-- `QString::toUInt` on an object key: a decimal number that fits in 32
bits (0 on failure, with the ok flag modelled by `Option`). -/
def parseUInt (s : String) : Option Nat :=
  match parseDecimal s.data with
  | some n => if n ≤ 4294967295 then some n else none
  | none => none

/-- `Monitor::toMethod` (monitor.cpp lines 207-236): returns the parsed
method and the ok flag; unrecognised strings give (GET, false). -/
def toMethod (str : String) : Method × Bool :=
  let l := strToLower (strTrim str)
  if l = "get" then (Method.GET, true)
  else if l = "head" then (Method.HEAD, true)
  else if l = "post" then (Method.POST, true)
  else if l = "put" then (Method.PUT, true)
  else if l = "delete" then (Method.DELETE, true)
  else if l = "options" then (Method.OPTIONS, true)
  else if l = "patch" then (Method.PATCH, true)
  else (Method.GET, false)

/-- `Monitor::toContentCheckMode` (monitor.cpp lines 255-280). -/
def toContentCheckMode (str : String) : ContentCheckMode × Bool :=
  let l := strDashToUnderscore (strToLower (strTrim str))
  if l = "no_check" then (ContentCheckMode.NO_CHECK, true)
  else if l = "content_match" then (ContentCheckMode.CONTENT_MATCH, true)
  else if l = "all_keywords" then (ContentCheckMode.ALL_KEYWORDS, true)
  else if l = "any_keywords" then (ContentCheckMode.ANY_KEYWORDS, true)
  else if l = "smart_content_match" then (ContentCheckMode.SMART_CONTENT_MATCH, true)
  else (ContentCheckMode.NO_CHECK, false)

/-- `Monitor::toContentType` (monitor.cpp lines 297-318). -/
def toContentType (str : String) : ContentType × Bool :=
  let l := strToLower (strTrim str)
  if l = "json" then (ContentType.JSON, true)
  else if l = "text" then (ContentType.TEXT, true)
  else if l = "xml" then (ContentType.XML, true)
  else (ContentType.TEXT, false)

/-- The value-level monitor tree built by
`InboundRestApi::CustomerAdd::generateMonitor`. -/
structure MonitorSpec where
  monitorId : Nat
  uri : String
  method : Method
  contentCheckMode : ContentCheckMode
  keywords : List Bytes
  contentType : ContentType
  userAgent : String
  postContent : Bytes
deriving DecidableEq, Repr

/-- The value-level host scheme tree built by
`InboundRestApi::CustomerAdd::generateHostScheme`. -/
structure HostSchemeSpec where
  hostSchemeId : Nat
  url : String
  monitors : List MonitorSpec
deriving DecidableEq, Repr

/-- The value-level customer tree built by
`InboundRestApi::CustomerAdd::generateCustomer`. -/
structure CustomerSpec where
  customerId : Nat
  supportsPingTesting : Bool
  supportsSslExpirationTesting : Bool
  supportsLatencyMeasurements : Bool
  supportsMultiRegionTesting : Bool
  pollingInterval : Nat
  hostSchemes : List HostSchemeSpec
deriving DecidableEq, Repr

/-- The keyword decode loop of `generateMonitor` (inbound_rest_api.cpp
lines 550-582): each array element is read with `toString()` (null string
for non-strings) and base64-decoded; the loop stops at the first decode
failure. -/
def decodeKeywords (b64 : String → Option Bytes) : List JValue → Bool × List Bytes
  | [] => (true, [])
  | v :: rest =>
      match b64 (jToString (some v)) with
      | some kw =>
          let r := decodeKeywords b64 rest
          (r.1, kw :: r.2)
      | none => (false, [])

/-- `InboundRestApi::CustomerAdd::generateMonitor` (inbound_rest_api.cpp
lines 467-642), with the success flag threaded exactly as in the source:
each enum field parsed through `toMethod` / `toContentCheckMode` /
`toContentType` OVERWRITES the flag with its own ok result, and the
keywords block overwrites it with `isArray()` — an earlier failure can
therefore be masked by a later well-formed field.  `numberFields` must
equal the object size at the end.  The monitor is built only when the
final flag is true. -/
def generateMonitor (b64 : String → Option Bytes) (success0 : Bool) (monitorId : Nat)
    (fields : List (String × JValue)) : Bool × Option MonitorSpec :=
  let r1 : Bool × Nat × String :=
    match jlookup fields "uri" with
    | some (JValue.jstr s) => (success0, 1, s)
    | some _ => (false, 1, "")
    | none => (false, 0, "")
  let r2 : Bool × Nat × Method :=
    match jlookup fields "method" with
    | some (JValue.jstr s) => ((toMethod s).2, r1.2.1 + 1, (toMethod s).1)
    | some _ => (false, r1.2.1 + 1, Method.GET)
    | none => (r1.1, r1.2.1, Method.GET)
  let r3 : Bool × Nat × ContentCheckMode :=
    match jlookup fields "content_check_mode" with
    | some (JValue.jstr s) => ((toContentCheckMode s).2, r2.2.1 + 1, (toContentCheckMode s).1)
    | some _ => (false, r2.2.1 + 1, ContentCheckMode.NO_CHECK)
    | none => (r2.1, r2.2.1, ContentCheckMode.NO_CHECK)
  let r4 : Bool × Nat × ContentType :=
    match jlookup fields "post_content_type" with
    | some (JValue.jstr s) => ((toContentType s).2, r3.2.1 + 1, (toContentType s).1)
    | some _ => (false, r3.2.1 + 1, ContentType.TEXT)
    | none => (r3.1, r3.2.1, ContentType.TEXT)
  let r5 : Bool × Nat × List Bytes :=
    match jlookup fields "keywords" with
    | some (JValue.jarr elems) =>
        let dk := decodeKeywords b64 elems
        (dk.1, r4.2.1 + 1, dk.2)
    | some _ => (false, r4.2.1 + 1, [])
    | none => (r4.1, r4.2.1, [])
  let r6 : Bool × Nat × String :=
    match jlookup fields "post_user_agent" with
    | some (JValue.jstr s) => (r5.1, r5.2.1 + 1, s)
    | some _ => (false, r5.2.1 + 1, "")
    | none => (r5.1, r5.2.1, "")
  let r7 : Bool × Nat × Bytes :=
    match jlookup fields "post_content" with
    | some (JValue.jstr s) =>
        (match b64 s with
         | some bs => (r6.1, r6.2.1 + 1, bs)
         | none => (false, r6.2.1 + 1, []))
    | some _ => (false, r6.2.1 + 1, [])
    | none => (r6.1, r6.2.1, [])
  let finalSuccess := if r7.2.1 ≠ fields.length then false else r7.1
  if finalSuccess then
    (true, some { monitorId := monitorId, uri := r1.2.2, method := r2.2.2,
                  contentCheckMode := r3.2.2, keywords := r5.2.2,
                  contentType := r4.2.2, userAgent := r6.2.2, postContent := r7.2.2 })
  else (false, none)

/-- The monitor loop of `generateHostScheme` (inbound_rest_api.cpp lines
420-449): `while (success && it != end)`, ids parsed with `toUInt` and
required non-zero; a generated monitor is attached to the host scheme. -/
def monitorsLoop (b64 : String → Option Bytes) :
    Bool → List (String × JValue) → Bool × List MonitorSpec
  | success, [] => (success, [])
  | success, (k, v) :: rest =>
      if success then
        match parseUInt k with
        | some mid =>
            if mid ≠ 0 then
              match v with
              | JValue.jobj mf =>
                  let gm := generateMonitor b64 success mid mf
                  let r := monitorsLoop b64 gm.1 rest
                  (r.1, (match gm.2 with | some m => m :: r.2 | none => r.2))
              | _ => (false, [])
            else (false, [])
        | none => (false, [])
      else (success, [])

/-- `InboundRestApi::CustomerAdd::generateHostScheme` (inbound_rest_api.cpp
lines 403-464).  Note the host scheme object is created before the monitor
loop runs, so it is returned (and attached by the caller) even when a
monitor fails validation afterwards. -/
def generateHostScheme (urlValid : String → Bool) (b64 : String → Option Bytes)
    (success0 : Bool) (hostSchemeId : Nat) (fields : List (String × JValue)) :
    Bool × Option HostSchemeSpec :=
  if ((jlookup fields "url").isSome && (jlookup fields "monitors").isSome) then
    match jlookup fields "monitors" with
    | some (JValue.jobj monFields) =>
        let urlString := jToString (jlookup fields "url")
        if urlValid urlString then
          let lm := monitorsLoop b64 success0 monFields
          (lm.1, some { hostSchemeId := hostSchemeId, url := urlString, monitors := lm.2 })
        else (false, none)
    | _ => (false, none)
  else (false, none)

/-- The host scheme loop of `generateCustomer` (inbound_rest_api.cpp lines
354-384). -/
def hostSchemesLoop (urlValid : String → Bool) (b64 : String → Option Bytes) :
    Bool → List (String × JValue) → Bool × List HostSchemeSpec
  | success, [] => (success, [])
  | success, (k, v) :: rest =>
      if success then
        match parseUInt k with
        | some hsid =>
            if hsid ≠ 0 then
              match v with
              | JValue.jobj hf =>
                  let gh := generateHostScheme urlValid b64 success hsid hf
                  let r := hostSchemesLoop urlValid b64 gh.1 rest
                  (r.1, (match gh.2 with | some h => h :: r.2 | none => r.2))
              | _ => (false, [])
            else (false, [])
        | none => (false, [])
      else (success, [])

/-- `InboundRestApi::CustomerAdd::generateCustomer` (inbound_rest_api.cpp
lines 325-400): requires `polling_interval` and `host_schemes` fields, the
latter an object, and a polling interval of at least 20 seconds; the four
subscription booleans default to false. -/
def generateCustomer (urlValid : String → Bool) (b64 : String → Option Bytes)
    (success0 : Bool) (customerId : Nat) (fields : List (String × JValue)) :
    Bool × Option CustomerSpec :=
  if ((jlookup fields "polling_interval").isSome && (jlookup fields "host_schemes").isSome) then
    match jlookup fields "host_schemes" with
    | some (JValue.jobj hsFields) =>
        let pollingIntervalInt := jToInt (jlookup fields "polling_interval") (-1)
        if 20 ≤ pollingIntervalInt then
          let lh := hostSchemesLoop urlValid b64 success0 hsFields
          (lh.1, some { customerId := customerId,
                        supportsPingTesting := jToBool (jlookup fields "ping") false,
                        supportsSslExpirationTesting := jToBool (jlookup fields "ssl_expiration") false,
                        supportsLatencyMeasurements := jToBool (jlookup fields "latency") false,
                        supportsMultiRegionTesting := jToBool (jlookup fields "multi_region") false,
                        pollingInterval := pollingIntervalInt.toNat,
                        hostSchemes := lh.2 })
        else (false, none)
    | _ => (false, none)
  else (false, none)

/-- The customer loop of
`InboundRestApi::CustomerAdd::processAuthenticatedRequest`
(inbound_rest_api.cpp lines 266-297). -/
def customersLoop (urlValid : String → Bool) (b64 : String → Option Bytes) :
    Bool → List (String × JValue) → Bool × List CustomerSpec
  | success, [] => (success, [])
  | success, (k, v) :: rest =>
      if success then
        match parseUInt k with
        | some cid =>
            if cid ≠ 0 then
              match v with
              | JValue.jobj cf =>
                  let gc := generateCustomer urlValid b64 success cid cf
                  let r := customersLoop urlValid b64 gc.1 rest
                  (r.1, (match gc.2 with | some c => c :: r.2 | none => r.2))
              | _ => (false, [])
            else (false, [])
        | none => (false, [])
      else (success, [])

/-- The tracker's customer set, membership level
(`ServiceThreadTracker::addCustomer` / `removeCustomer`). -/
structure Tracker where
  customers : List CustomerSpec
deriving DecidableEq, Repr

/-- `ServiceThreadTracker::removeCustomer`: drop any customer with the
id. -/
def removeCustomer (t : Tracker) (cid : Nat) : Tracker :=
  { customers := t.customers.filter (fun c => c.customerId != cid) }

/-- `ServiceThreadTracker::addCustomer`: install the tree. -/
def addCustomer (t : Tracker) (c : CustomerSpec) : Tracker :=
  { customers := t.customers ++ [c] }

/-- `InboundRestApi::CustomerAdd::processAuthenticatedRequest`
(inbound_rest_api.cpp lines 254-322): parse and validate every customer in
the payload first; only when all succeeded, for each built customer remove
any existing customer with that id and install the new tree; on failure
delete the built trees and leave the tracker untouched.  Returns the new
tracker and the success flag. -/
def processCustomerAdd (urlValid : String → Bool) (b64 : String → Option Bytes)
    (t : Tracker) (payload : List (String × JValue)) : Tracker × Bool :=
  let lc := customersLoop urlValid b64 true payload
  if lc.1 then
    (lc.2.foldl (fun acc c => addCustomer (removeCustomer acc c.customerId) c) t, true)
  else (t, false)

/-! ### Content check dispatch (monitor.cpp 505-519) -/

/-- `Monitor::checkContentChangeSmart` (monitor.cpp lines 683-708): the
external HTML-scrubber hash (parameter `scrub`, treated as a black-box
byte-stream hash) of the body with the 4 little-endian monitor id bytes
appended; event semantics as for CONTENT_MATCH. -/
def checkContentChangeSmart (scrub : Bytes → Bytes) (id now : Nat) (status : MonitorStatus)
    (lastHash : Bytes) (body : Bytes) : Bytes × List Event :=
  let hash := scrub body ++ idBytes id
  if lastHash.isEmpty then
    (hash, [])
  else if lastHash ≠ hash then
    (hash,
      [{ monitorId := id, timestamp := now, eventType := EventType.CONTENT_CHANGED,
         monitorStatus := status, hash := hash, message := "" }])
  else
    (lastHash, [])

/-- The content-check dispatch of `Monitor::processValidResponse`
(monitor.cpp lines 505-519); the NO_CHECK arm is unreachable there (the
dispatch is guarded by `currentContentCheckMode != NO_CHECK`) and leaves
the state unchanged. -/
def runContentCheck (utf8 : Bytes → String) (scrub : Bytes → Bytes)
    (mode : ContentCheckMode) (id now : Nat) (status : MonitorStatus)
    (lastHash : Bytes) (keywords : List Bytes) (body : Bytes) : Bytes × List Event :=
  match mode with
  | ContentCheckMode.NO_CHECK => (lastHash, [])
  | ContentCheckMode.CONTENT_MATCH => checkContentChange id now status lastHash body
  | ContentCheckMode.ANY_KEYWORDS => checkAnyKeywordMatch id now status lastHash keywords body
  | ContentCheckMode.ALL_KEYWORDS => checkAllKeywordMatch utf8 id now status lastHash keywords body
  | ContentCheckMode.SMART_CONTENT_MATCH => checkContentChangeSmart scrub id now status lastHash body

/-- Modelled from the claim's words (refinement comparison only): "every
keyword found in the body is folded into the hash state" — the sublist of
keywords contained in the body, in order. -/
def claimFoldedKeywords (body : Bytes) (keywords : List Bytes) : List Bytes :=
  keywords.filter (fun kw => bytesContains body kw)

/-! ## Theorems -/

/-- C1: a `HostScheme` whose monitor map is empty does NOT return
immediately from `serviceNextMonitor`: the source has no empty-map guard,
re-seats the cursor to `begin()` (which equals the end sentinel) and
dereferences it — modelled by the embedding returning `none` (undefined
behaviour) instead of a normal result with no dispatches. -/
theorem serviceNextMonitor_empty_derefs_end :
    serviceNextMonitor { monitors := [], mCursor := 0, suspects := [], sCursor := 0 } = none := by
  rfl

/-- C2: aborting a monitor with a live in-flight request emits no event
and sets the status to UNKNOWN, but the pending-reply slot does NOT become
empty — `Monitor::abort` deletes the reply without resetting the pointer,
so the slot is left dangling and a later `startCheck` dispatches
nothing. -/
theorem abort_leaves_slot_occupied :
    (abort { id := 7, status := MonitorStatus.WORKING, slot := ReplySlot.live, lastHash := [] }).2
        = ([] : List Event) ∧
    (abort { id := 7, status := MonitorStatus.WORKING, slot := ReplySlot.live, lastHash := [] }).1.status
        = MonitorStatus.UNKNOWN ∧
    (abort { id := 7, status := MonitorStatus.WORKING, slot := ReplySlot.live, lastHash := [] }).1.slot
        ≠ ReplySlot.null ∧
    (startCheck false true
        (abort { id := 7, status := MonitorStatus.WORKING, slot := ReplySlot.live, lastHash := [] }).1).2
        = false := by
  decide

/-- C5 counterexample: at T = 2 ms, offset = 0, now = 1 ms the code's
cycle start (floor) differs from the claimed ceil formula. -/
theorem restartCycleStart_ne_ceil :
    restartCycleStart 2 0 1 ≠ claimCycleStartCeil 2 0 1 := by
  decide

/-- C5 amended: `restartTimingCycle` sets the cycle start to
`T * (floor(now_ms / T) + 1) + region_offset_ms`; equivalently, the cycle
start minus the region offset is a multiple of T lying in
(now_ms, now_ms + T]. -/
theorem restartCycleStart_char (T offset now : Nat) (hT : 0 < T) :
    restartCycleStart T offset now = T * (now / T + 1) + offset ∧
    T ∣ (restartCycleStart T offset now - offset) ∧
    now < restartCycleStart T offset now - offset ∧
    restartCycleStart T offset now - offset ≤ now + T := by
  have hsub : restartCycleStart T offset now - offset = T * (now / T + 1) := by
    simp [restartCycleStart]
  have hdm : T * (now / T) + now % T = now := Nat.div_add_mod now T
  have hlt : now % T < T := Nat.mod_lt now hT
  have hexp : T * (now / T + 1) = T * (now / T) + T := by ring
  refine ⟨rfl, ?_, ?_, ?_⟩
  · exact hsub ▸ Dvd.intro (now / T + 1) rfl
  · rw [hsub, hexp]; omega
  · rw [hsub, hexp]; omega

/-- C5 witness: the amended characterisation at T = 2, offset = 3,
now = 5. -/
theorem restartCycleStart_char_witness :
    0 < 2 ∧
    (restartCycleStart 2 3 5 = 2 * (5 / 2 + 1) + 3 ∧
     2 ∣ (restartCycleStart 2 3 5 - 3) ∧
     5 < restartCycleStart 2 3 5 - 3 ∧
     restartCycleStart 2 3 5 - 3 ≤ 5 + 2) :=
  ⟨by decide, restartCycleStart_char 2 3 5 (by decide)⟩

/-- C10: a monitor in ANY_KEYWORDS or ALL_KEYWORDS mode with an empty
keyword list performs no content check on a transport success: for every
body no event is emitted and the stored hash is unchanged. -/
theorem emptyKeywords_no_content_check (utf8 : Bytes → String) (scrub : Bytes → Bytes)
    (mode : ContentCheckMode) (id now : Nat) (status : MonitorStatus)
    (lastHash : Bytes) (body : Bytes)
    (hmode : mode = ContentCheckMode.ANY_KEYWORDS ∨ mode = ContentCheckMode.ALL_KEYWORDS) :
    runContentCheck utf8 scrub mode id now status lastHash [] body = (lastHash, []) := by
  rcases hmode with h | h <;> subst h <;>
    simp [runContentCheck, checkAnyKeywordMatch, checkAllKeywordMatch]

/-- C10 witness: the empty-keyword no-op at concrete inputs. -/
theorem emptyKeywords_no_content_check_witness :
    (ContentCheckMode.ANY_KEYWORDS = ContentCheckMode.ANY_KEYWORDS ∨
       ContentCheckMode.ANY_KEYWORDS = ContentCheckMode.ALL_KEYWORDS) ∧
    runContentCheck (fun _ => "") (fun b => b) ContentCheckMode.ANY_KEYWORDS 5 0
        MonitorStatus.WORKING [1, 2] [] [3, 4] = ([1, 2], []) :=
  ⟨Or.inl rfl,
   emptyKeywords_no_content_check (fun _ => "") (fun b => b) ContentCheckMode.ANY_KEYWORDS 5 0
     MonitorStatus.WORKING [1, 2] [3, 4] (Or.inl rfl)⟩

/-- C8 counterexample: with a batch in flight and the flush timer not
armed, `recordLatency` arms nothing, while the claim's reading ("…;
otherwise, if the flush timer is not already armed, it is armed for 60
seconds") would arm the 60-second timer. -/
theorem recordLatency_inflight_arms_nothing :
    (recordLatency { current := [], inFlight := some [], reportTimer := none,
                     retryTimer := none, posts := [] } 1 1609484400 5).reportTimer = none ∧
    (recordLatencyClaim { current := [], inFlight := some [], reportTimer := none,
                          retryTimer := none, posts := [] } 1 1609484400 5).reportTimer
        = some 60000 ∧
    recordLatency { current := [], inFlight := some [], reportTimer := none,
                    retryTimer := none, posts := [] } 1 1609484400 5
      ≠ recordLatencyClaim { current := [], inFlight := some [], reportTimer := none,
                             retryTimer := none, posts := [] } 1 1609484400 5 := by
  decide

/-- C8 amended: `recordLatency` always appends the sample to the current
vector; only when no batch is in flight does it then either schedule an
immediate flush (≥ 1000 pending entries) or arm the 60-second flush timer
when it is not already armed; with a batch in flight nothing is
scheduled. -/
theorem recordLatency_spec (s : AggState) (id ts lat : Nat) :
    (recordLatency s id ts lat).current = s.current ++ [mkLatencyEntry id ts lat] ∧
    (recordLatency s id ts lat).inFlight = s.inFlight ∧
    (recordLatency s id ts lat).posts = s.posts ∧
    (recordLatency s id ts lat).retryTimer = s.retryTimer ∧
    (s.inFlight = none → 1000 ≤ s.current.length + 1 →
       (recordLatency s id ts lat).reportTimer = some 0) ∧
    (s.inFlight = none → s.current.length + 1 < 1000 → s.reportTimer = none →
       (recordLatency s id ts lat).reportTimer = some 60000) ∧
    (s.inFlight = none → s.current.length + 1 < 1000 → s.reportTimer ≠ none →
       (recordLatency s id ts lat).reportTimer = s.reportTimer) ∧
    (s.inFlight ≠ none → (recordLatency s id ts lat).reportTimer = s.reportTimer) := by
  unfold recordLatency
  simp only [maximumNumberPendingEntries, maximumReportDelayMilliseconds]
  split
  · split
    · simp_all
    · split
      · simp_all
      · simp_all
  · simp_all

/-- Helper: k rounds of (failure, retry fire) on an in-flight batch B
post the batch once per round — the i-th POST built against the header
environment sampled at that call — and leave the latency vectors
unchanged. -/
theorem retryRounds_posts (B : List LatencyEntry) :
    ∀ (k : Nat) (envs : Nat → HeaderEnv) (s : AggState), s.inFlight = some B →
      (retryRounds envs s k).inFlight = some B ∧
      (retryRounds envs s k).current = s.current ∧
      (retryRounds envs s k).posts
        = s.posts ++ (List.range k).map (fun i => sendReportBytes (envs i) B) := by
  intro k
  induction k with
  | zero =>
      intro envs s hs
      simp [retryRounds, hs]
  | succ k ih =>
      intro envs s hs
      have hstep :
          fireRetryTimer (envs 0) (requestFailed s)
            = { s with retryTimer := none,
                       posts := s.posts ++ [sendReportBytes (envs 0) B] } := by
        simp [fireRetryTimer, requestFailed, hs]
      have h2 := ih (fun i => envs (i + 1)) (fireRetryTimer (envs 0) (requestFailed s))
        (by rw [hstep]; exact hs)
      refine ⟨?_, ?_, ?_⟩
      · simp only [retryRounds]
        exact h2.1
      · simp only [retryRounds]
        rw [h2.2.1, hstep]
      · simp only [retryRounds]
        rw [h2.2.2, hstep]
        simp [List.range_succ_eq_map, List.append_assoc, Function.comp,
              Nat.succ_eq_add_one]

/-- Helper: a packed little-endian u32 decodes back to the value modulo
2^32. -/
theorem decLe32_le32 (n : Nat) :
    decLe32 (n % 256) (n / 256 % 256) (n / 65536 % 256) (n / 16777216 % 256)
      = n % 4294967296 := by
  simp only [decLe32]
  omega

/-- Helper: the packed header is 64 bytes for every identifier length
(`setServerIdentifier` truncates to 48 bytes and zero-fills). -/
theorem encodeHeader_length (e : HeaderEnv) : (encodeHeader e).length = 64 := by
  simp [encodeHeader, le16, le32]
  omega

/-- Helper: the entry region is 12 bytes per entry. -/
theorem entriesRegion_length (entries : List LatencyEntry) :
    ((entries.map encodeEntry).flatten).length = 12 * entries.length := by
  induction entries with
  | nil => rfl
  | cons en rest ih =>
      simp [encodeEntry, le32, ih]
      omega

/-- Helper: decoding the packed entry region returns every entry's fields
reduced modulo 2^32, in order. -/
theorem decodeEntries_encode (entries : List LatencyEntry) :
    decodeEntries ((entries.map encodeEntry).flatten)
      = entries.map (fun en => (en.monitorId % 4294967296,
                                en.zoranTimestamp % 4294967296,
                                en.latencyMicroseconds % 4294967296)) := by
  induction entries with
  | nil => rfl
  | cons en rest ih =>
      simp only [List.map_cons, List.flatten_cons, encodeEntry, le32,
                 List.cons_append, List.nil_append, List.append_assoc,
                 decodeEntries, ih, decLe32_le32]
      simpa using ih

/-- C7 counterexample: the claimed header layout with `u8 reserved[3]` is
62 bytes, while the payload the code builds devotes 64 bytes to the header
(the `spare` array is 5 bytes); at N = 0 the claimed bytes differ from the
posted bytes. -/
theorem claimHeaderReserved3_wrong :
    (claimHeaderReserved3 ⟨[], 0, 0, 0, 0⟩).length = 62 ∧
    (sendReportBytes ⟨[], 0, 0, 0, 0⟩ []).length = 64 ∧
    claimHeaderReserved3 ⟨[], 0, 0, 0, 0⟩ ≠ sendReportBytes ⟨[], 0, 0, 0, 0⟩ [] := by
  decide

/-- C7 amended: the payload POSTed to /latency/record is exactly
64 + 12·N bytes: a 64-byte packed little-endian header (u16 version = 0,
48-byte zero-padded identifier, u32 monitors_per_second, u16 cpu_loading,
u16 memory_loading, u8 server_status_code, then FIVE reserved bytes of
value zero) followed by the N packed 12-byte entries (u32 monitor_id,
u32 zoran_timestamp, u32 latency_microseconds) in insertion order. -/
theorem sendReport_layout (e : HeaderEnv) (entries : List LatencyEntry) :
    (sendReportBytes e entries).length = 64 + 12 * entries.length ∧
    (sendReportBytes e entries).take 64 = encodeHeader e ∧
    (encodeHeader e).take 2 = [0, 0] ∧
    (encodeHeader e).drop 59 = List.replicate 5 0 ∧
    decodeEntries ((sendReportBytes e entries).drop 64)
      = entries.map (fun en => (en.monitorId % 4294967296,
                                en.zoranTimestamp % 4294967296,
                                en.latencyMicroseconds % 4294967296)) := by
  refine ⟨?_, ?_, ?_, ?_, ?_⟩
  · simp only [sendReportBytes, List.length_append, encodeHeader_length,
               entriesRegion_length]
  · rw [sendReportBytes, ← encodeHeader_length e, List.take_left]
  · simp [encodeHeader, le16, List.take, List.append_assoc]
  · have hX : (le16 0 ++ e.identifier.take 48
        ++ List.replicate (48 - e.identifier.length) 0
        ++ le32 e.monitorsPerSecond ++ le16 e.cpuLoading ++ le16 e.memoryLoading
        ++ [e.serverStatusCode % 256]).length = 59 := by
      simp [le16, le32]
      omega
    rw [encodeHeader, ← hX, List.drop_left]
  · rw [sendReportBytes, ← encodeHeader_length e, List.drop_left,
        decodeEntries_encode]

/-- C6 counterexample: `sendReport` re-samples `monitorsPerSecond()`,
`cpuUtilization()`, `memoryUtilization()` and the tracker status at every
call (data_aggregator.cpp lines 344-347), the retry included, so when the
sampled environment changes between the first POST and the retry — here
the server status code moves from 1 (ACTIVE) to 2 (INACTIVE) — the retry
does not re-send the same bytes: the two POSTed payloads differ. -/
theorem latencyRetry_not_same_bytes :
    (fireRetryTimer { identifier := [], monitorsPerSecond := 0, cpuLoading := 0,
                      memoryLoading := 0, serverStatusCode := 2 }
       (requestFailed
         (fireReportTimer { identifier := [], monitorsPerSecond := 0, cpuLoading := 0,
                            memoryLoading := 0, serverStatusCode := 1 }
           { current := [mkLatencyEntry 1 1609484401 7], inFlight := none,
             reportTimer := some 0, retryTimer := none, posts := [] }))).posts
      = [sendReportBytes ⟨[], 0, 0, 0, 1⟩ [mkLatencyEntry 1 1609484401 7],
         sendReportBytes ⟨[], 0, 0, 0, 2⟩ [mkLatencyEntry 1 1609484401 7]] ∧
    sendReportBytes ⟨[], 0, 0, 0, 1⟩ [mkLatencyEntry 1 1609484401 7]
      ≠ sendReportBytes ⟨[], 0, 0, 0, 2⟩ [mkLatencyEntry 1 1609484401 7] := by
  decide

/-- C6 amended: flushing the batch POSTs it once, and k consecutive
(transport failure, 60-second retry) rounds re-POST the SAME IN-FLIGHT
BATCH k more times — every one of the k + 1 payloads carries the identical
packed entry region from byte 64 on, and every failure leaves the
in-flight batch and the current vector untouched — but each POST rebuilds
the 64-byte header from the environment sampled at that call, so the full
payloads are byte-for-byte identical whenever the sampled header fields
coincide (a stable environment gives k + 1 identical POSTs); the success
reply after the k-th retry drops the in-flight batch without posting. -/
theorem latencyRetry_resends_batch (e0 : HeaderEnv) (envs : Nat → HeaderEnv)
    (s : AggState) (k : Nat) (h : s.inFlight = none) :
    (fireReportTimer e0 s).inFlight = some s.current ∧
    (retryRounds envs (fireReportTimer e0 s) k).inFlight = some s.current ∧
    (retryRounds envs (fireReportTimer e0 s) k).posts
        = s.posts ++ sendReportBytes e0 s.current
            :: (List.range k).map (fun i => sendReportBytes (envs i) s.current) ∧
    (∀ p ∈ sendReportBytes e0 s.current
            :: (List.range k).map (fun i => sendReportBytes (envs i) s.current),
        p.drop 64 = (s.current.map encodeEntry).flatten) ∧
    ((∀ i, i < k → envs i = e0) →
       (retryRounds envs (fireReportTimer e0 s) k).posts
         = s.posts ++ List.replicate (k + 1) (sendReportBytes e0 s.current)) ∧
    (∀ t : AggState, (requestFailed t).retryTimer = some 60000 ∧
        (requestFailed t).inFlight = t.inFlight ∧
        (requestFailed t).current = t.current ∧
        (requestFailed t).posts = t.posts) ∧
    (responseOk (retryRounds envs (fireReportTimer e0 s) k)).inFlight = none ∧
    (responseOk (retryRounds envs (fireReportTimer e0 s) k)).posts
        = (retryRounds envs (fireReportTimer e0 s) k).posts := by
  have h1 :
      fireReportTimer e0 s
        = { s with reportTimer := none, current := [],
                   inFlight := some s.current,
                   posts := s.posts ++ [sendReportBytes e0 s.current] } := by
    simp [fireReportTimer, startReportingLatencyData, h]
  have h2 := retryRounds_posts s.current k envs (fireReportTimer e0 s) (by rw [h1])
  have hposts : (retryRounds envs (fireReportTimer e0 s) k).posts
      = s.posts ++ sendReportBytes e0 s.current
          :: (List.range k).map (fun i => sendReportBytes (envs i) s.current) := by
    rw [h2.2.2, h1]
    simp [List.append_assoc]
  have hdrop : ∀ (env : HeaderEnv) (B : List LatencyEntry),
      (sendReportBytes env B).drop 64 = (B.map encodeEntry).flatten := by
    intro env B
    rw [sendReportBytes, ← encodeHeader_length env, List.drop_left]
  have hok : ∀ u : AggState, u.inFlight = some s.current →
      (responseOk u).inFlight = none ∧ (responseOk u).posts = u.posts := by
    intro u hu
    obtain ⟨cur, infl, rta, rtb, ps⟩ := u
    simp only at hu
    subst hu
    constructor
    · simp only [responseOk]
      split
      · rfl
      · split
        · rfl
        · rfl
    · simp only [responseOk]
      split
      · rfl
      · split
        · rfl
        · rfl
  refine ⟨by rw [h1], h2.1, hposts, ?_, ?_, ?_, ?_, ?_⟩
  · intro p hp
    rcases List.mem_cons.mp hp with hp1 | hp2
    · rw [hp1]
      exact hdrop e0 s.current
    · obtain ⟨i, hi, hpe⟩ := List.mem_map.mp hp2
      rw [← hpe]
      exact hdrop (envs i) s.current
  · intro hstable
    rw [hposts, List.replicate_succ]
    congr 1
    congr 1
    rw [List.eq_replicate_iff]
    refine ⟨by simp, ?_⟩
    intro b hb
    obtain ⟨i, hi, hpe⟩ := List.mem_map.mp hb
    rw [← hpe, hstable i (List.mem_range.mp hi)]
  · intro t
    simp [requestFailed, retryDelaySeconds]
  · exact (hok _ h2.1).1
  · exact (hok _ h2.1).2

/-- C6 witness: one failure round (k = 1) on a concrete aggregator state,
with the retry's sampled environment differing from the first POST's. -/
theorem latencyRetry_resends_batch_witness :
    ({ current := [mkLatencyEntry 1 1609484401 7], inFlight := none,
       reportTimer := some 0, retryTimer := none, posts := [] } : AggState).inFlight = none ∧
    ((fireReportTimer ⟨[], 0, 0, 0, 1⟩
        { current := [mkLatencyEntry 1 1609484401 7], inFlight := none,
          reportTimer := some 0, retryTimer := none, posts := [] }).inFlight
        = some [mkLatencyEntry 1 1609484401 7] ∧
     (retryRounds (fun _ => ⟨[], 0, 0, 0, 2⟩) (fireReportTimer ⟨[], 0, 0, 0, 1⟩
        { current := [mkLatencyEntry 1 1609484401 7], inFlight := none,
          reportTimer := some 0, retryTimer := none, posts := [] }) 1).inFlight
        = some [mkLatencyEntry 1 1609484401 7] ∧
     (retryRounds (fun _ => ⟨[], 0, 0, 0, 2⟩) (fireReportTimer ⟨[], 0, 0, 0, 1⟩
        { current := [mkLatencyEntry 1 1609484401 7], inFlight := none,
          reportTimer := some 0, retryTimer := none, posts := [] }) 1).posts
        = [] ++ sendReportBytes ⟨[], 0, 0, 0, 1⟩ [mkLatencyEntry 1 1609484401 7]
            :: (List.range 1).map
                 (fun i => sendReportBytes ((fun _ => ⟨[], 0, 0, 0, 2⟩ : Nat → HeaderEnv) i)
                   [mkLatencyEntry 1 1609484401 7]) ∧
     (∀ p ∈ sendReportBytes ⟨[], 0, 0, 0, 1⟩ [mkLatencyEntry 1 1609484401 7]
            :: (List.range 1).map
                 (fun i => sendReportBytes ((fun _ => ⟨[], 0, 0, 0, 2⟩ : Nat → HeaderEnv) i)
                   [mkLatencyEntry 1 1609484401 7]),
        p.drop 64 = ([mkLatencyEntry 1 1609484401 7].map encodeEntry).flatten) ∧
     ((∀ i, i < 1 → (fun _ => (⟨[], 0, 0, 0, 2⟩ : HeaderEnv)) i = (⟨[], 0, 0, 0, 1⟩ : HeaderEnv)) →
        (retryRounds (fun _ => ⟨[], 0, 0, 0, 2⟩) (fireReportTimer ⟨[], 0, 0, 0, 1⟩
           { current := [mkLatencyEntry 1 1609484401 7], inFlight := none,
             reportTimer := some 0, retryTimer := none, posts := [] }) 1).posts
          = [] ++ List.replicate (1 + 1)
              (sendReportBytes ⟨[], 0, 0, 0, 1⟩ [mkLatencyEntry 1 1609484401 7])) ∧
     (∀ t : AggState, (requestFailed t).retryTimer = some 60000 ∧
        (requestFailed t).inFlight = t.inFlight ∧
        (requestFailed t).current = t.current ∧
        (requestFailed t).posts = t.posts) ∧
     (responseOk (retryRounds (fun _ => ⟨[], 0, 0, 0, 2⟩) (fireReportTimer ⟨[], 0, 0, 0, 1⟩
        { current := [mkLatencyEntry 1 1609484401 7], inFlight := none,
          reportTimer := some 0, retryTimer := none, posts := [] }) 1)).inFlight = none ∧
     (responseOk (retryRounds (fun _ => ⟨[], 0, 0, 0, 2⟩) (fireReportTimer ⟨[], 0, 0, 0, 1⟩
        { current := [mkLatencyEntry 1 1609484401 7], inFlight := none,
          reportTimer := some 0, retryTimer := none, posts := [] }) 1)).posts
        = (retryRounds (fun _ => ⟨[], 0, 0, 0, 2⟩) (fireReportTimer ⟨[], 0, 0, 0, 1⟩
            { current := [mkLatencyEntry 1 1609484401 7], inFlight := none,
              reportTimer := some 0, retryTimer := none, posts := [] }) 1).posts) :=
  ⟨rfl,
   latencyRetry_resends_batch ⟨[], 0, 0, 0, 1⟩ (fun _ => ⟨[], 0, 0, 0, 2⟩)
     { current := [mkLatencyEntry 1 1609484401 7], inFlight := none,
       reportTimer := some 0, retryTimer := none, posts := [] } 1 rfl⟩

/-- C3 counterexample: from a fresh host scheme, add monitor 1 (UNKNOWN,
suspect) and deliver a transport success (WORKING, removed from the
suspect set) — the invariant holds; `abort` then sets the status to
UNKNOWN without inserting the monitor into the suspect set, violating the
invariant. -/
theorem abort_breaks_suspectInvariant :
    suspectInvariant
      (hsValidResponse
        (hsMonitorAdded { ids := [], status := fun _ => MonitorStatus.UNKNOWN,
                          suspects := [] } 1) 1) ∧
    ¬ suspectInvariant
      (hsAbort
        (hsValidResponse
          (hsMonitorAdded { ids := [], status := fun _ => MonitorStatus.UNKNOWN,
                            suspects := [] } 1) 1) 1) := by
  constructor
  · intro j hj
    simp [hsMonitorAdded, hsValidResponse, setStatus, setInsert, setRemove,
          suspectInvariant] at hj ⊢
    subst hj
    simp
  · intro h
    have := h 1 (by simp [hsAbort, hsValidResponse, hsMonitorAdded, setStatus,
                          setInsert, setRemove])
    simp [hsAbort, hsValidResponse, hsMonitorAdded, setStatus, setInsert,
          setRemove] at this

/-- C3 amended: monitor addition, transport success and transport error
all preserve the suspect-set invariant; `abort` preserves it only when the
aborted monitor's status is already not WORKING (aborting a WORKING
monitor leaves it outside the suspect set with status UNKNOWN). -/
theorem suspectInvariant_preserved (s : HSState) (id : Nat)
    (hInv : suspectInvariant s) :
    suspectInvariant (hsMonitorAdded s id) ∧
    suspectInvariant (hsValidResponse s id) ∧
    suspectInvariant (hsErrorResponse s id) ∧
    (s.status id ≠ MonitorStatus.WORKING → suspectInvariant (hsAbort s id)) := by
  refine ⟨?_, ?_, ?_, ?_⟩
  · intro j hj
    rcases eq_or_ne j id with rfl | hne
    · simp only [hsMonitorAdded, setStatus, setInsert, if_pos rfl]
      constructor
      · intro _
        simp
      · intro _
        split
        · assumption
        · exact List.mem_cons_self _ _
    · have hj2 : j ∈ s.ids := by
        rcases List.mem_cons.mp hj with h | h
        · exact absurd h hne
        · exact h
      have hiv := hInv j hj2
      simp only [hsMonitorAdded, setStatus, setInsert, if_neg hne]
      split
      · exact hiv
      · rw [List.mem_cons]
        constructor
        · intro h
          rcases h with h | h
          · exact absurd h hne
          · exact hiv.mp h
        · intro h
          exact Or.inr (hiv.mpr h)
  · intro j hj
    by_cases hc : s.status id = MonitorStatus.WORKING
    · have hcond : ¬ (s.status id ≠ MonitorStatus.WORKING) := by simp [hc]
      simp only [hsValidResponse, if_neg hcond] at hj ⊢
      rcases eq_or_ne j id with rfl | hne
      · simp only [setStatus, if_pos rfl]
        have hiv := hInv j hj
        simp [hc] at hiv
        simp [hiv]
      · simp only [setStatus, if_neg hne]
        exact hInv j hj
    · have hcond : s.status id ≠ MonitorStatus.WORKING := hc
      simp only [hsValidResponse, if_pos hcond] at hj ⊢
      rcases eq_or_ne j id with rfl | hne
      · simp only [setStatus, if_pos rfl, setRemove]
        simp [List.mem_filter]
      · simp only [setStatus, if_neg hne, setRemove]
        rw [List.mem_filter]
        have hiv := hInv j hj
        simp [hne, hiv]
  · intro j hj
    by_cases hc : s.status id = MonitorStatus.FAILED
    · have hcond : ¬ (s.status id ≠ MonitorStatus.FAILED) := by simp [hc]
      simp only [hsErrorResponse, if_neg hcond] at hj ⊢
      exact hInv j hj
    · have hcond : s.status id ≠ MonitorStatus.FAILED := hc
      simp only [hsErrorResponse, if_pos hcond] at hj ⊢
      rcases eq_or_ne j id with rfl | hne
      · simp only [setStatus, if_pos rfl, setInsert]
        constructor
        · intro _
          simp
        · intro _
          split
          · have hiv := hInv j hj
            rcases eq_or_ne (s.status j) MonitorStatus.WORKING with hw | hw
            · simp_all
            · exact hiv.mpr hw
          · exact List.mem_cons_self _ _
      · simp only [setStatus, if_neg hne, setInsert]
        have hiv := hInv j hj
        split
        · exact hiv
        · rw [List.mem_cons]
          constructor
          · intro h
            rcases h with h | h
            · exact absurd h hne
            · exact hiv.mp h
          · intro h
            exact Or.inr (hiv.mpr h)
  · intro habort j hj
    simp only [hsAbort] at hj ⊢
    rcases eq_or_ne j id with rfl | hne
    · simp only [setStatus, if_pos rfl]
      have hiv := hInv j hj
      simp [hiv.mpr habort]
    · simp only [setStatus, if_neg hne]
      exact hInv j hj

/-- C3 witness: the amended preservation at a concrete state with one
non-WORKING monitor. -/
theorem suspectInvariant_preserved_witness :
    suspectInvariant { ids := [1], status := fun _ => MonitorStatus.UNKNOWN, suspects := [1] } ∧
    (suspectInvariant (hsMonitorAdded
        { ids := [1], status := fun _ => MonitorStatus.UNKNOWN, suspects := [1] } 2) ∧
     suspectInvariant (hsValidResponse
        { ids := [1], status := fun _ => MonitorStatus.UNKNOWN, suspects := [1] } 2) ∧
     suspectInvariant (hsErrorResponse
        { ids := [1], status := fun _ => MonitorStatus.UNKNOWN, suspects := [1] } 2) ∧
     (({ ids := [1], status := fun _ => MonitorStatus.UNKNOWN, suspects := [1] } : HSState).status 2
          ≠ MonitorStatus.WORKING →
        suspectInvariant (hsAbort
          { ids := [1], status := fun _ => MonitorStatus.UNKNOWN, suspects := [1] } 2))) :=
  ⟨by unfold suspectInvariant; decide,
   suspectInvariant_preserved
     { ids := [1], status := fun _ => MonitorStatus.UNKNOWN, suspects := [1] } 2
     (by unfold suspectInvariant; decide)⟩

/-- Helper: the ALL_KEYWORDS scan folds exactly the longest all-found
leading run of the keyword list, succeeds iff every keyword is found, and
records the first missing keyword. -/
theorem scanAllKeywords_spec (body : Bytes) (kws : List Bytes) :
    scanAllKeywords body kws
      = (kws.all (fun kw => bytesContains body kw),
         kws.takeWhile (fun kw => bytesContains body kw),
         (kws.dropWhile (fun kw => bytesContains body kw)).head?) := by
  induction kws with
  | nil => rfl
  | cons kw rest ih =>
      by_cases h : bytesContains body kw
      · simp [scanAllKeywords, h, ih]
      · simp [scanAllKeywords, h]

/-- C4 counterexample: keywords ["a", "b"] (bytes [97], [98]) against the
body "b" (bytes [98]): the scan stops at the missing "a", so the found
keyword "b" is NOT folded into the hash, and the stored hash differs from
the hash the claim prescribes (monitor id, body, then every found
keyword). -/
theorem checkAll_does_not_fold_all_found :
    (scanAllKeywords [98] [[97], [98]]).2.1 ≠ claimFoldedKeywords [98] [[97], [98]] ∧
    (checkAllKeywordMatch (fun _ => "") 1 0 MonitorStatus.WORKING [] [[97], [98]] [98]).1
      ≠ idBytes 1 ++ [98] ++ (claimFoldedKeywords [98] [[97], [98]]).flatten := by
  decide

/-- C4 amended: with a non-empty keyword list in ALL_KEYWORDS mode, the
keywords are scanned in order STOPPING AT THE FIRST MISSING keyword; each
keyword found before that point is folded into the hash state (4-byte
little-endian monitor id, body, found keywords); the new hash is always
stored; no event is emitted when every keyword is found or the hash equals
the stored one; when some keyword is missing and the hash differs, exactly
one KEYWORDS event is emitted whose message carries the first missing
keyword UTF-8 decoded as `Missing keyword "<kw>"`. -/
theorem checkAllKeywordMatch_spec (utf8 : Bytes → String) (id now : Nat)
    (status : MonitorStatus) (lastHash : Bytes) (keywords : List Bytes) (body : Bytes)
    (hkw : keywords ≠ []) :
    (checkAllKeywordMatch utf8 id now status lastHash keywords body).1
        = idBytes id ++ body
          ++ (keywords.takeWhile (fun kw => bytesContains body kw)).flatten ∧
    (keywords.dropWhile (fun kw => bytesContains body kw) = [] →
       (checkAllKeywordMatch utf8 id now status lastHash keywords body).2 = []) ∧
    (lastHash = idBytes id ++ body
          ++ (keywords.takeWhile (fun kw => bytesContains body kw)).flatten →
       (checkAllKeywordMatch utf8 id now status lastHash keywords body).2 = []) ∧
    (∀ kw tl, keywords.dropWhile (fun kw2 => bytesContains body kw2) = kw :: tl →
       lastHash ≠ idBytes id ++ body
          ++ (keywords.takeWhile (fun kw2 => bytesContains body kw2)).flatten →
       (checkAllKeywordMatch utf8 id now status lastHash keywords body).2
         = [{ monitorId := id, timestamp := now, eventType := EventType.KEYWORDS,
              monitorStatus := status,
              hash := idBytes id ++ body
                ++ (keywords.takeWhile (fun kw2 => bytesContains body kw2)).flatten,
              message := "Missing keyword \"" ++ utf8 kw ++ "\"" }]) := by
  have hlen : keywords.length > 0 := by
    cases keywords with
    | nil => exact absurd rfl hkw
    | cons a l => simp
  refine ⟨?_, ?_, ?_, ?_⟩
  · simp only [checkAllKeywordMatch, if_pos hlen, scanAllKeywords_spec]
  · intro hdrop
    have hall : keywords.all (fun kw => bytesContains body kw) = true := by
      rw [List.all_eq_true]
      intro x hx
      exact List.dropWhile_eq_nil_iff.mp hdrop x hx
    simp only [checkAllKeywordMatch, if_pos hlen, scanAllKeywords_spec, hall]
    simp
  · intro hsame
    simp only [checkAllKeywordMatch, if_pos hlen, scanAllKeywords_spec]
    simp [hsame]
  · intro kw tl hdrop hne
    have hall : keywords.all (fun kw2 => bytesContains body kw2) = false := by
      by_contra hcon
      rw [Bool.not_eq_false, List.all_eq_true] at hcon
      rw [List.dropWhile_eq_nil_iff.mpr hcon] at hdrop
      exact List.noConfusion hdrop
    simp only [checkAllKeywordMatch, if_pos hlen, scanAllKeywords_spec, hall, hdrop]
    simp
    simpa using hne

/-- C4 witness: the amended ALL_KEYWORDS behaviour at keyword list ["a"]
and the empty body. -/
theorem checkAllKeywordMatch_spec_witness :
    ([[97]] : List Bytes) ≠ [] ∧
    ((checkAllKeywordMatch (fun _ => "a") 1 0 MonitorStatus.WORKING ([] : Bytes) [[97]] ([] : Bytes)).1
        = idBytes 1 ++ ([] : Bytes)
          ++ (([[97]] : List Bytes).takeWhile (fun kw => bytesContains ([] : Bytes) kw)).flatten ∧
     (([[97]] : List Bytes).dropWhile (fun kw => bytesContains ([] : Bytes) kw) = [] →
        (checkAllKeywordMatch (fun _ => "a") 1 0 MonitorStatus.WORKING ([] : Bytes) [[97]] ([] : Bytes)).2 = []) ∧
     (([] : Bytes) = idBytes 1 ++ ([] : Bytes)
          ++ (([[97]] : List Bytes).takeWhile (fun kw => bytesContains ([] : Bytes) kw)).flatten →
        (checkAllKeywordMatch (fun _ => "a") 1 0 MonitorStatus.WORKING ([] : Bytes) [[97]] ([] : Bytes)).2 = []) ∧
     (∀ kw tl, ([[97]] : List Bytes).dropWhile (fun kw2 => bytesContains ([] : Bytes) kw2) = kw :: tl →
        ([] : Bytes) ≠ idBytes 1 ++ ([] : Bytes)
          ++ (([[97]] : List Bytes).takeWhile (fun kw2 => bytesContains ([] : Bytes) kw2)).flatten →
        (checkAllKeywordMatch (fun _ => "a") 1 0 MonitorStatus.WORKING ([] : Bytes) [[97]] ([] : Bytes)).2
          = [{ monitorId := 1, timestamp := 0, eventType := EventType.KEYWORDS,
               monitorStatus := MonitorStatus.WORKING,
               hash := idBytes 1 ++ ([] : Bytes)
                 ++ (([[97]] : List Bytes).takeWhile (fun kw2 => bytesContains ([] : Bytes) kw2)).flatten,
               message := "Missing keyword \"" ++ (fun _ => "a") kw ++ "\"" }])) :=
  ⟨by decide,
   checkAllKeywordMatch_spec (fun _ => "a") 1 0 MonitorStatus.WORKING ([] : Bytes) [[97]]
     ([] : Bytes) (by decide)⟩

/-- C9: a /customer/add payload whose monitor has an invalid `uri` field
(a number, not a string — a validation failure) is nevertheless accepted
and installed whole, because `generateMonitor` lets the later `method`
field's `toMethod` call overwrite the success flag: with the `uri` field
alone the monitor is rejected, adding a well-formed `method` field masks
the failure, the call reports success and installs the tree with an empty
uri — the tracker is NOT left unchanged as the claim requires. -/
theorem customerAdd_masks_validation_failure :
    (generateMonitor (fun _ => some []) true 3 [("uri", JValue.jnum 42)]).1 = false ∧
    generateMonitor (fun _ => some []) true 3
        [("uri", JValue.jnum 42), ("method", JValue.jstr "get")]
      = (true, some { monitorId := 3, uri := "", method := Method.GET,
                      contentCheckMode := ContentCheckMode.NO_CHECK, keywords := [],
                      contentType := ContentType.TEXT, userAgent := "", postContent := [] }) ∧
    processCustomerAdd (fun _ => true) (fun _ => some []) { customers := [] }
        [("1", JValue.jobj
           [("polling_interval", JValue.jnum 20),
            ("host_schemes", JValue.jobj
              [("2", JValue.jobj
                 [("url", JValue.jstr "http://x"),
                  ("monitors", JValue.jobj
                    [("3", JValue.jobj
                       [("uri", JValue.jnum 42),
                        ("method", JValue.jstr "get")])])])])])]
      = ({ customers :=
            [{ customerId := 1,
               supportsPingTesting := false,
               supportsSslExpirationTesting := false,
               supportsLatencyMeasurements := false,
               supportsMultiRegionTesting := false,
               pollingInterval := 20,
               hostSchemes :=
                 [{ hostSchemeId := 2, url := "http://x",
                    monitors :=
                      [{ monitorId := 3, uri := "", method := Method.GET,
                         contentCheckMode := ContentCheckMode.NO_CHECK, keywords := [],
                         contentType := ContentType.TEXT, userAgent := "",
                         postContent := [] }] }] }] }, true) := by
  refine ⟨by decide, by decide, by decide⟩

/-- C8 witness: the amended recordLatency behaviour on a concrete empty
aggregator state. -/
theorem recordLatency_spec_witness :
    (recordLatency { current := [], inFlight := none, reportTimer := none,
                     retryTimer := none, posts := [] } 1 1609484400 5).current
        = ([] : List LatencyEntry) ++ [mkLatencyEntry 1 1609484400 5] ∧
    (recordLatency { current := [], inFlight := none, reportTimer := none,
                     retryTimer := none, posts := [] } 1 1609484400 5).inFlight
        = ({ current := [], inFlight := none, reportTimer := none,
             retryTimer := none, posts := [] } : AggState).inFlight ∧
    (recordLatency { current := [], inFlight := none, reportTimer := none,
                     retryTimer := none, posts := [] } 1 1609484400 5).posts
        = ({ current := [], inFlight := none, reportTimer := none,
             retryTimer := none, posts := [] } : AggState).posts ∧
    (recordLatency { current := [], inFlight := none, reportTimer := none,
                     retryTimer := none, posts := [] } 1 1609484400 5).retryTimer
        = ({ current := [], inFlight := none, reportTimer := none,
             retryTimer := none, posts := [] } : AggState).retryTimer ∧
    (({ current := [], inFlight := none, reportTimer := none,
        retryTimer := none, posts := [] } : AggState).inFlight = none →
       1000 ≤ ([] : List LatencyEntry).length + 1 →
       (recordLatency { current := [], inFlight := none, reportTimer := none,
                        retryTimer := none, posts := [] } 1 1609484400 5).reportTimer = some 0) ∧
    (({ current := [], inFlight := none, reportTimer := none,
        retryTimer := none, posts := [] } : AggState).inFlight = none →
       ([] : List LatencyEntry).length + 1 < 1000 →
       ({ current := [], inFlight := none, reportTimer := none,
          retryTimer := none, posts := [] } : AggState).reportTimer = none →
       (recordLatency { current := [], inFlight := none, reportTimer := none,
                        retryTimer := none, posts := [] } 1 1609484400 5).reportTimer = some 60000) ∧
    (({ current := [], inFlight := none, reportTimer := none,
        retryTimer := none, posts := [] } : AggState).inFlight = none →
       ([] : List LatencyEntry).length + 1 < 1000 →
       ({ current := [], inFlight := none, reportTimer := none,
          retryTimer := none, posts := [] } : AggState).reportTimer ≠ none →
       (recordLatency { current := [], inFlight := none, reportTimer := none,
                        retryTimer := none, posts := [] } 1 1609484400 5).reportTimer
         = ({ current := [], inFlight := none, reportTimer := none,
              retryTimer := none, posts := [] } : AggState).reportTimer) ∧
    (({ current := [], inFlight := none, reportTimer := none,
        retryTimer := none, posts := [] } : AggState).inFlight ≠ none →
       (recordLatency { current := [], inFlight := none, reportTimer := none,
                        retryTimer := none, posts := [] } 1 1609484400 5).reportTimer
         = ({ current := [], inFlight := none, reportTimer := none,
              retryTimer := none, posts := [] } : AggState).reportTimer) :=
  recordLatency_spec
    { current := [], inFlight := none, reportTimer := none, retryTimer := none, posts := [] }
    1 1609484400 5

end PS
